import Mathlib

/-!
Verification of the parameter-normalization, credential-resolution and
error-mapping layer of the scrapegraph-mcp server
(src/scrapegraph_mcp/server.py), shallowly embedded in Lean 4.

JSON values are modelled by an inductive type; Python dicts are modelled as
association lists in insertion order (Python 3.7+ dicts preserve insertion
order, and the server only ever inserts fresh keys at the end).
-/

set_option maxRecDepth 100000

namespace ScrapeGraphMCP

/-- JSON values, as produced by Python `json.loads` and sent as request
payloads. Numbers are modelled as integers: the server and every claim only
ever handle integer-valued numeric parameters. -/
inductive Json where
  | null : Json
  | bool (b : Bool) : Json
  | num (n : Int) : Json
  | str (s : String) : Json
  | arr (elems : List Json) : Json
  | obj (members : List (String × Json)) : Json

/-- Does the first character list lead the second one (i.e. is it an initial
segment of it)? -/
def leadsWith : List Char → List Char → Bool
  | [], _ => true
  | _ :: _, [] => false
  | a :: as, b :: bs => a == b && leadsWith as bs

/-- Does the needle occur contiguously inside the haystack? -/
def occursIn : List Char → List Char → Bool
  | needle, [] => needle.isEmpty
  | needle, c :: rest => leadsWith needle (c :: rest) || occursIn needle rest

/-- Substring test: `strContains h n = true` iff `n` occurs in `h`. -/
def strContains (haystack needle : String) : Bool :=
  occursIn needle.data haystack.data

/-! ## A model of Python `json.loads`

Restricted to the JSON fragment the server's inputs use: strings with the
single-character escapes, integer numerals, `true`/`false`/`null`, arrays and
objects. Unicode `\u` escapes and float literals are outside the model; no
claim depends on them. -/

/-- Skip JSON whitespace. -/
def skipWs : List Char → List Char
  | [] => []
  | c :: cs => if c = ' ' ∨ c = '\t' ∨ c = '\n' ∨ c = '\r' then skipWs cs else c :: cs

/-- Single-character JSON string escapes. -/
def escChar : Char → Option Char
  | '\"' => some '\"'
  | '\\' => some '\\'
  | '/' => some '/'
  | 'n' => some '\n'
  | 't' => some '\t'
  | 'r' => some '\r'
  | 'b' => some (Char.ofNat 8)
  | 'f' => some (Char.ofNat 12)
  | _ => none

/-- Parse the body of a JSON string after the opening quote; returns the
decoded characters and the remaining input. -/
def parseStringBody : List Char → Option (List Char × List Char)
  | [] => none
  | '\"' :: rest => some ([], rest)
  | '\\' :: rest =>
    match rest with
    | [] => none
    | e :: rest2 =>
      match escChar e with
      | none => none
      | some c =>
        match parseStringBody rest2 with
        | none => none
        | some (s, r) => some (c :: s, r)
  | c :: rest =>
    match parseStringBody rest with
    | none => none
    | some (s, r) => some (c :: s, r)

/-- Accumulate a run of decimal digits. -/
def parseDigitsAux : List Char → Nat → Nat × List Char
  | [], acc => (acc, [])
  | c :: cs, acc =>
    if c.isDigit then parseDigitsAux cs (acc * 10 + (c.toNat - '0'.toNat))
    else (acc, c :: cs)

/-- Parse an integer JSON numeral (optional leading minus). -/
def parseNumber : List Char → Option (Json × List Char)
  | '-' :: cs =>
    match cs with
    | c :: cs2 =>
      if c.isDigit then
        match parseDigitsAux (c :: cs2) 0 with
        | (n, rest) => some (Json.num (-(Int.ofNat n)), rest)
      else none
    | [] => none
  | c :: cs =>
    if c.isDigit then
      match parseDigitsAux (c :: cs) 0 with
      | (n, rest) => some (Json.num (Int.ofNat n), rest)
    else none
  | [] => none

/-- Insert a key/value pair into an object, replacing the value in place if
the key is already present (Python dict semantics: first position, last
value wins). -/
def objInsert (kvs : List (String × Json)) (k : String) (v : Json) : List (String × Json) :=
  if kvs.any (fun kv => kv.1 == k) then
    kvs.map (fun kv => if kv.1 == k then (kv.1, v) else kv)
  else kvs ++ [(k, v)]

/-- Collapse raw parsed object members into a Python-dict-like association
list with unique keys. -/
def dedupPairs (pairs : List (String × Json)) : List (String × Json) :=
  pairs.foldl (fun acc kv => objInsert acc kv.1 kv.2) []

mutual

/-- Parse a JSON value; `fuel` bounds the recursion depth. -/
def parseValue : Nat → List Char → Option (Json × List Char)
  | 0, _ => none
  | fuel + 1, cs =>
    match skipWs cs with
    | '\"' :: rest =>
      match parseStringBody rest with
      | none => none
      | some (s, r) => some (Json.str (String.mk s), r)
    | '\x7b' :: rest =>
      match skipWs rest with
      | '\x7d' :: r2 => some (Json.obj [], r2)
      | cs2 =>
        match parseObjMembers fuel cs2 with
        | none => none
        | some (kvs, r) => some (Json.obj (dedupPairs kvs), r)
    | '[' :: rest =>
      match skipWs rest with
      | ']' :: r2 => some (Json.arr [], r2)
      | cs2 =>
        match parseArrElems fuel cs2 with
        | none => none
        | some (vs, r) => some (Json.arr vs, r)
    | 't' :: 'r' :: 'u' :: 'e' :: rest => some (Json.bool true, rest)
    | 'f' :: 'a' :: 'l' :: 's' :: 'e' :: rest => some (Json.bool false, rest)
    | 'n' :: 'u' :: 'l' :: 'l' :: rest => some (Json.null, rest)
    | cs1 => parseNumber cs1

/-- Parse one or more comma-separated array elements up to the closing
bracket. -/
def parseArrElems : Nat → List Char → Option (List Json × List Char)
  | 0, _ => none
  | fuel + 1, cs =>
    match parseValue fuel cs with
    | none => none
    | some (v, rest) =>
      match skipWs rest with
      | ',' :: rest2 =>
        match parseArrElems fuel rest2 with
        | none => none
        | some (vs, r) => some (v :: vs, r)
      | ']' :: rest2 => some ([v], rest2)
      | _ => none

/-- Parse one or more comma-separated object members up to the closing
brace. -/
def parseObjMembers : Nat → List Char → Option (List (String × Json) × List Char)
  | 0, _ => none
  | fuel + 1, cs =>
    match skipWs cs with
    | '\"' :: rest =>
      match parseStringBody rest with
      | none => none
      | some (k, rest2) =>
        match skipWs rest2 with
        | ':' :: rest3 =>
          match parseValue fuel rest3 with
          | none => none
          | some (v, rest4) =>
            match skipWs rest4 with
            | ',' :: rest5 =>
              match parseObjMembers fuel rest5 with
              | none => none
              | some (kvs, r) => some ((String.mk k, v) :: kvs, r)
            | '\x7d' :: rest5 => some ([(String.mk k, v)], rest5)
            | _ => none
        | _ => none
    | _ => none

end

/-- Model of Python `json.loads`: parse a complete JSON document, requiring
that only whitespace remains. `none` models `json.JSONDecodeError`. -/
def jsonParse (s : String) : Option Json :=
  match parseValue (2 * s.length + 2) s.data with
  | none => none
  | some (v, rest) => if (skipWs rest).isEmpty then some v else none

/-! ## Request payloads

Payloads are association lists in Python dict insertion order. Optional
parameters are appended only when present, mirroring the
`if x is not None: data["x"] = x` lines of the source. -/

/-- The entry a `if x is not None: data[k] = x` line contributes. -/
def optEntry (k : String) : Option Json → List (String × Json)
  | none => []
  | some v => [(k, v)]

/-- Is the key present in the payload (Python `k in d`)? -/
def payloadHasKey (p : List (String × Json)) (k : String) : Bool :=
  p.any (fun kv => kv.1 == k)

/-- Look up the value stored under a key (Python `d[k]`). -/
def payloadGet : List (String × Json) → String → Option Json
  | [], _ => none
  | kv :: rest, k => if kv.1 == k then some kv.2 else payloadGet rest k

/-- API base path (`ScapeGraphClient.BASE_URL`, server.py line 76). -/
def BASE_URL : String := "https://api.scrapegraphai.com/v1"

/-- Error raised by `ScapeGraphClient.smartscraper` when no content source is
supplied (server.py line 156). -/
def missingSourceMsg : String :=
  "Must provide one of: website_url, website_html, or website_markdown"

/-- Content-source selection of `ScapeGraphClient.smartscraper` (server.py
lines 148-156): the first source present in priority order `website_url`,
`website_html`, `website_markdown`; the `ValueError` when all three are
absent is raised before any network call. -/
def smartscraper_source :
    Option String → Option String → Option String →
    Except String (List (String × Json))
  | some u, _, _ => .ok [("website_url", Json.str u)]
  | none, some h, _ => .ok [("website_html", Json.str h)]
  | none, none, some m => .ok [("website_markdown", Json.str m)]
  | none, none, none => .error missingSourceMsg

/-- Payload construction of `ScapeGraphClient.smartscraper`, continued: the
chosen content source is followed by the optional parameters in source
order. -/
def smartscraper_payload (user_prompt : String)
    (website_url website_html website_markdown : Option String)
    (output_schema : Option (List (String × Json)))
    (number_of_scrolls total_pages : Option Int)
    (render_heavy_js stealth : Option Bool) :
    Except String (List (String × Json)) :=
  match smartscraper_source website_url website_html website_markdown with
  | .error e => .error e
  | .ok src =>
    .ok (("user_prompt", Json.str user_prompt) :: src
      ++ optEntry "output_schema" (output_schema.map Json.obj)
      ++ optEntry "number_of_scrolls" (number_of_scrolls.map Json.num)
      ++ optEntry "total_pages" (total_pages.map Json.num)
      ++ optEntry "render_heavy_js" (render_heavy_js.map Json.bool)
      ++ optEntry "stealth" (stealth.map Json.bool))

/-- Payload of `ScapeGraphClient.searchscraper` (server.py lines 190-201). -/
def searchscraper_payload (user_prompt : String)
    (num_results number_of_scrolls : Option Int) : List (String × Json) :=
  ("user_prompt", Json.str user_prompt)
    :: optEntry "num_results" (num_results.map Json.num)
    ++ optEntry "number_of_scrolls" (number_of_scrolls.map Json.num)

/-- Payload of `ScapeGraphClient.scrape` (server.py lines 222-225). -/
def scrape_payload (website_url : String) (render_heavy_js : Option Bool) :
    List (String × Json) :=
  ("website_url", Json.str website_url)
    :: optEntry "render_heavy_js" (render_heavy_js.map Json.bool)

/-- Payload of `ScapeGraphClient.sitemap` (server.py line 242). -/
def sitemap_payload (website_url : String) : List (String × Json) :=
  [("website_url", Json.str website_url)]

/-- Payload of `ScapeGraphClient.agentic_scrapper` (server.py lines 270-281).
`timeout_seconds` only overrides the transport timeout and never enters the
payload, so it is not modelled. -/
def agentic_payload (url : String) (user_prompt : Option String)
    (output_schema : Option (List (String × Json))) (steps : Option (List Json))
    (ai_extraction persistent_session : Option Bool) : List (String × Json) :=
  ("url", Json.str url)
    :: optEntry "user_prompt" (user_prompt.map Json.str)
    ++ optEntry "output_schema" (output_schema.map Json.obj)
    ++ optEntry "steps" (steps.map Json.arr)
    ++ optEntry "ai_extraction" (ai_extraction.map Json.bool)
    ++ optEntry "persistent_session" (persistent_session.map Json.bool)

/-- Error raised by `ScapeGraphClient.smartcrawler_initiate` when AI mode has
no prompt (server.py line 332). -/
def promptRequiredMsg : String :=
  "prompt is required when extraction_mode is \x27ai\x27"

/-- Error raised by `ScapeGraphClient.smartcrawler_initiate` for an
unrecognized extraction mode (server.py line 335). -/
def invalidModeMsg (extraction_mode : String) : String :=
  "Invalid extraction_mode: " ++ extraction_mode ++ ". Must be \x27ai\x27 or \x27markdown\x27"

/-- Payload construction of `ScapeGraphClient.smartcrawler_initiate`
(server.py lines 322-341): `url`, then `markdown_only` (markdown mode) or
`prompt` (ai mode, `.error` without a prompt), then the optional crawl
parameters; an unrecognized mode errors before any network call. -/
def smartcrawler_initiate_payload (url : String) (prompt : Option String)
    (extraction_mode : String) (depth max_pages : Option Int)
    (same_domain_only : Option Bool) : Except String (List (String × Json)) :=
  let opts : List (String × Json) :=
    optEntry "depth" (depth.map Json.num)
      ++ optEntry "max_pages" (max_pages.map Json.num)
      ++ optEntry "same_domain_only" (same_domain_only.map Json.bool)
  if extraction_mode = "markdown" then
    .ok (("url", Json.str url) :: ("markdown_only", Json.bool true) :: opts)
  else if extraction_mode = "ai" then
    match prompt with
    | none => .error promptRequiredMsg
    | some p => .ok (("url", Json.str url) :: ("prompt", Json.str p) :: opts)
  else
    .error (invalidModeMsg extraction_mode)

/-! ## Tool-layer input normalization -/

/-- The `Union[str, Dict[str, Any]]` shape of the `output_schema` tool
argument. -/
inductive SchemaInput where
  | str (s : String) : SchemaInput
  | dict (kvs : List (String × Json)) : SchemaInput

/-- The `Union[str, List[str]]` shape of the `steps` tool argument; a native
list reaching the handler has been validated as a list of strings by the
framework. -/
inductive StepsInput where
  | str (s : String) : StepsInput
  | list (xs : List String) : StepsInput

/-- Modelled detail text of Python `json.JSONDecodeError.__str__` (external
`json` module); the exact wording varies with the failure position and no
claim depends on it, so one representative is used. -/
def jsonDecodeDetail : String := "Expecting value: line 1 column 1 (char 0)"

/-- The `f"Invalid JSON for output_schema: {str(e)}"` message (server.py
lines 1557 and 2246). -/
def invalidSchemaJsonMsg : String :=
  "Invalid JSON for output_schema: " ++ jsonDecodeDetail

/-- The `required`-field repair applied to a normalized schema (server.py
lines 1560-1562 and 2249-2251): inject `required: []` when absent. -/
def ensureRequired (d : List (String × Json)) : List (String × Json) :=
  if payloadHasKey d "required" then d else d ++ [("required", Json.arr [])]

/-- `output_schema` normalization (server.py lines 1545-1562, duplicated
verbatim at 2235-2251): a dict is used as-is, a string must decode to a JSON
object, and the `required` repair runs on the result. -/
def normalize_output_schema :
    Option SchemaInput → Except String (Option (List (String × Json)))
  | none => .ok none
  | some (.dict d) => .ok (some (ensureRequired d))
  | some (.str s) =>
    match jsonParse s with
    | none => .error invalidSchemaJsonMsg
    | some (Json.obj kvs) => .ok (some (ensureRequired kvs))
    | some _ => .error "output_schema must be a JSON object"

/-- `steps` normalization (server.py lines 2221-2233): a native list is kept;
a string is JSON-decoded and the decoded value used whenever it is a list
(whatever its elements), any other decode outcome wrapping the original
string as a one-element list. -/
def normalize_steps : Option StepsInput → Option (List Json)
  | none => none
  | some (.list xs) => some (xs.map Json.str)
  | some (.str s) =>
    match jsonParse s with
    | some (Json.arr xs) => some xs
    | _ => some [Json.str s]

/-! ## Credential resolution -/

/-- The credential error of `get_api_key` (server.py lines 434-438). -/
def apiKeyErrorMsg : String :=
  "ScapeGraph API key is required. Please provide it via:\n- HTTP header \x27X-API-Key\x27 (for remote server via mcp-remote)\n- MCP config \x27scrapegraphApiKey\x27 (for Smithery/local stdio)"

/-- `get_api_key` (server.py lines 396-438): the `x-api-key` header wins when
non-empty (a missing header and a non-HTTP context both fall through), then
the session-config `scrapegraph_api_key` when non-empty, else the
`ValueError` naming both configuration paths. -/
def get_api_key (header sessionConfig : Option String) : Except String String :=
  let fromSession : Except String String :=
    match sessionConfig with
    | some k => if k = "" then .error apiKeyErrorMsg else .ok k
    | none => .error apiKeyErrorMsg
  match header with
  | some k => if k = "" then fromSession else .ok k
  | none => fromSession

/-! ## HTTP model and response handling -/

/-- An outbound HTTP request as issued by the `httpx.Client` calls. -/
structure HttpRequest where
  method : String
  url : String
  body : Option (List (String × Json))

/-- An upstream HTTP response. -/
structure HttpResponse where
  statusCode : Nat
  reasonPhrase : String
  body : String

/-- Error-class word of `httpx.Response.raise_for_status` (external httpx
library), keyed on the leading status digit. -/
def httpxErrorType (statusCode : Nat) : String :=
  if statusCode / 100 = 1 then "Informational response"
  else if statusCode / 100 = 3 then "Redirect response"
  else if statusCode / 100 = 4 then "Client error"
  else if statusCode / 100 = 5 then "Server error"
  else "Invalid status code"

/-- Message of the `httpx.HTTPStatusError` raised by
`httpx.Response.raise_for_status` (external httpx library): it is built from
the status code, the reason phrase and the request URL only — the response
body never appears in it. -/
def httpxStatusErrorMessage (statusCode : Nat) (reasonPhrase requestUrl : String) :
    String :=
  httpxErrorType statusCode ++ " \x27" ++ toString statusCode ++ " " ++ reasonPhrase
    ++ "\x27 for url \x27" ++ requestUrl
    ++ "\x27\nFor more information check: https://developer.mozilla.org/en-US/docs/Web/HTTP/Status/"
    ++ toString statusCode

/-- Response handling of the client methods that check
`response.status_code != 200` and raise `Exception(f"Error {code}: {text}")`
(markdownify, smartscraper, searchscraper, smartcrawler_initiate,
smartcrawler_fetch_results); on 200 the JSON body is decoded. -/
def checkStatusFinish (resp : HttpResponse) : Except String Json :=
  if resp.statusCode ≠ 200 then
    .error ("Error " ++ toString resp.statusCode ++ ": " ++ resp.body)
  else
    match jsonParse resp.body with
    | some j => .ok j
    | none => .error jsonDecodeDetail

/-- Response handling of the client methods that call
`response.raise_for_status()` (scrape, sitemap, agentic_scrapper): any
non-2xx status raises an `httpx.HTTPStatusError`, whose message omits the
response body; on success the JSON body is decoded. -/
def raiseForStatusFinish (requestUrl : String) (resp : HttpResponse) :
    Except String Json :=
  if 200 ≤ resp.statusCode ∧ resp.statusCode ≤ 299 then
    match jsonParse resp.body with
    | some j => .ok j
    | none => .error jsonDecodeDetail
  else
    .error (httpxStatusErrorMessage resp.statusCode resp.reasonPhrase requestUrl)

/-! ## Tool dispatch -/

/-- What a tool call does up to (but excluding) the outbound HTTP call:
either it fails locally — no network activity — or it issues exactly one
request. -/
inductive PreNetwork (α : Type) where
  | localError (msg : String) : PreNetwork α
  | request (req : α) : PreNetwork α

/-- The arguments of the `smartscraper` tool handler. -/
structure SmartscraperArgs where
  user_prompt : String
  website_url : Option String
  website_html : Option String
  website_markdown : Option String
  output_schema : Option SchemaInput
  number_of_scrolls : Option Int
  total_pages : Option Int
  render_heavy_js : Option Bool
  stealth : Option Bool

/-- The arguments of the `agentic_scrapper` tool handler (`timeout_seconds`
affects only the transport timeout and is not modelled). -/
structure AgenticArgs where
  url : String
  user_prompt : Option String
  output_schema : Option SchemaInput
  steps : Option StepsInput
  ai_extraction : Option Bool
  persistent_session : Option Bool

/-- One call to one of the eight exposed tools. -/
inductive ToolCall where
  | markdownify (website_url : String) : ToolCall
  | smartscraper (args : SmartscraperArgs) : ToolCall
  | searchscraper (user_prompt : String) (num_results number_of_scrolls : Option Int) : ToolCall
  | smartcrawler_initiate (url : String) (prompt : Option String)
      (extraction_mode : String) (depth max_pages : Option Int)
      (same_domain_only : Option Bool) : ToolCall
  | smartcrawler_fetch_results (request_id : String) : ToolCall
  | scrape (website_url : String) (render_heavy_js : Option Bool) : ToolCall
  | sitemap (website_url : String) : ToolCall
  | agentic_scrapper (args : AgenticArgs) : ToolCall

/-- Resolve the credential first and continue only on success, as every tool
handler except `agentic_scrapper` does. -/
def withApiKey (header sessionConfig : Option String)
    (next : PreNetwork HttpRequest) : PreNetwork HttpRequest :=
  match get_api_key header sessionConfig with
  | .error e => .localError e
  | .ok _ => next

/-- The local (pre-network) phase of each tool handler: credential
resolution, input normalization and payload construction in source order.
Every handler resolves the credential first except `agentic_scrapper`, which
normalizes `steps` and `output_schema` before calling `get_api_key`
(server.py lines 2220-2254). -/
def prepareTool (tc : ToolCall) (header sessionConfig : Option String) :
    PreNetwork HttpRequest :=
  match tc with
  | .markdownify website_url =>
    withApiKey header sessionConfig
      (.request ⟨"POST", BASE_URL ++ "/markdownify", some [("website_url", Json.str website_url)]⟩)
  | .smartscraper a =>
    withApiKey header sessionConfig
      (match normalize_output_schema a.output_schema with
      | .error e => .localError e
      | .ok ns =>
        match smartscraper_payload a.user_prompt a.website_url a.website_html
            a.website_markdown ns a.number_of_scrolls a.total_pages
            a.render_heavy_js a.stealth with
        | .error e => .localError e
        | .ok p => .request ⟨"POST", BASE_URL ++ "/smartscraper", some p⟩)
  | .searchscraper user_prompt num_results number_of_scrolls =>
    withApiKey header sessionConfig
      (.request ⟨"POST", BASE_URL ++ "/searchscraper",
        some (searchscraper_payload user_prompt num_results number_of_scrolls)⟩)
  | .smartcrawler_initiate url prompt extraction_mode depth max_pages same_domain_only =>
    withApiKey header sessionConfig
      (match smartcrawler_initiate_payload url prompt extraction_mode depth
          max_pages same_domain_only with
      | .error e => .localError e
      | .ok p => .request ⟨"POST", BASE_URL ++ "/crawl", some p⟩)
  | .smartcrawler_fetch_results request_id =>
    withApiKey header sessionConfig
      (.request ⟨"GET", BASE_URL ++ "/crawl/" ++ request_id, none⟩)
  | .scrape website_url render_heavy_js =>
    withApiKey header sessionConfig
      (.request ⟨"POST", BASE_URL ++ "/scrape", some (scrape_payload website_url render_heavy_js)⟩)
  | .sitemap website_url =>
    withApiKey header sessionConfig
      (.request ⟨"POST", BASE_URL ++ "/sitemap", some (sitemap_payload website_url)⟩)
  | .agentic_scrapper a =>
    match normalize_output_schema a.output_schema with
    | .error e => .localError e
    | .ok ns =>
      withApiKey header sessionConfig
        (.request ⟨"POST", BASE_URL ++ "/agentic-scrapper",
          some (agentic_payload a.url a.user_prompt ns (normalize_steps a.steps)
            a.ai_extraction a.persistent_session)⟩)

/-- Does the tool's client method use `response.raise_for_status()` rather
than the explicit `status_code != 200` check? -/
def usesRaiseForStatus : ToolCall → Bool
  | .scrape _ _ => true
  | .sitemap _ => true
  | .agentic_scrapper _ => true
  | _ => false

/-- Map the upstream response to the tool's result, per the tool's response
handling style. -/
def finishTool (tc : ToolCall) (req : HttpRequest) (resp : HttpResponse) :
    Except String Json :=
  if usesRaiseForStatus tc then raiseForStatusFinish req.url resp
  else checkStatusFinish resp

/-- The uniform failure envelope every handler returns: a dictionary whose
only key is `error`, mapped to the failure message. -/
def errorEnvelope (msg : String) : Json :=
  Json.obj [("error", Json.str msg)]

/-- One complete tool invocation against an upstream oracle: the local phase,
then (when a request was issued) the upstream call and response mapping, with
every failure converted to the `errorEnvelope`. -/
def runTool (tc : ToolCall) (header sessionConfig : Option String)
    (upstream : HttpRequest → HttpResponse) : Json :=
  match prepareTool tc header sessionConfig with
  | .localError e => errorEnvelope e
  | .request req =>
    match finishTool tc req (upstream req) with
    | .ok j => j
    | .error e => errorEnvelope e

/-! ## Derived observations used by the claims -/

/-- Is the JSON value a string? -/
def jsonIsStr : Json → Bool
  | .str _ => true
  | _ => false

/-- Is the JSON value an object? -/
def jsonIsObj : Json → Bool
  | .obj _ => true
  | _ => false

/-- The content-source keys present in a payload, in order. -/
def sourceKeys (p : List (String × Json)) : List String :=
  p.filterMap (fun kv =>
    if kv.1 == "website_url" || kv.1 == "website_html" || kv.1 == "website_markdown"
    then some kv.1 else none)

/-- Does the pre-credential normalization of the tool succeed? `true` for
every tool except an `agentic_scrapper` call whose `output_schema` fails to
normalize — the only normalization any handler runs before `get_api_key`. -/
def agenticSchemaOk : ToolCall → Bool
  | .agentic_scrapper a =>
    match normalize_output_schema a.output_schema with
    | .ok _ => true
    | .error _ => false
  | _ => true

/-- The error message a tool surfaces for a failed upstream response, by
response-handling style: the explicit-check tools embed status code and
response body verbatim; the `raise_for_status` tools surface the httpx
message, which is independent of the body. -/
def upstreamErrorMessage (tc : ToolCall) (req : HttpRequest) (resp : HttpResponse) :
    String :=
  if usesRaiseForStatus tc then
    httpxStatusErrorMessage resp.statusCode resp.reasonPhrase req.url
  else "Error " ++ toString resp.statusCode ++ ": " ++ resp.body

/-! ## General lemmas -/

/-- When both credential sources are empty or absent, `get_api_key` fails
with the message naming both configuration paths. -/
theorem get_api_key_empty (header sessionConfig : Option String)
    (hh : header.getD "" = "") (hs : sessionConfig.getD "" = "") :
    get_api_key header sessionConfig = .error apiKeyErrorMsg := by
  cases header with
  | none =>
    cases sessionConfig with
    | none => rfl
    | some k => rw [Option.getD_some] at hs; subst hs; rfl
  | some k =>
    rw [Option.getD_some] at hh; subst hh
    cases sessionConfig with
    | none => rfl
    | some k2 => rw [Option.getD_some] at hs; subst hs; rfl

/-- A local (pre-network) failure surfaces as the error envelope. -/
theorem runTool_localError (tc : ToolCall) (header sessionConfig : Option String)
    (upstream : HttpRequest → HttpResponse) (e : String)
    (hp : prepareTool tc header sessionConfig = .localError e) :
    runTool tc header sessionConfig upstream = errorEnvelope e := by
  unfold runTool
  rw [hp]

/-- The `required` repair always leaves the key present. -/
theorem ensureRequired_hasKey (d : List (String × Json)) :
    payloadHasKey (ensureRequired d) "required" = true := by
  unfold ensureRequired
  by_cases h : payloadHasKey d "required" = true
  · rw [if_pos h]; exact h
  · rw [if_neg h]
    simp [payloadHasKey, List.any_append]

/-- The `required` repair does nothing when the key is present. -/
theorem ensureRequired_of_hasKey (d : List (String × Json))
    (h : payloadHasKey d "required" = true) : ensureRequired d = d := by
  unfold ensureRequired
  rw [if_pos h]

/-- The `required` repair is idempotent. -/
theorem ensureRequired_idem (d : List (String × Json)) :
    ensureRequired (ensureRequired d) = ensureRequired d :=
  ensureRequired_of_hasKey _ (ensureRequired_hasKey d)

/-! ## Claims -/

/-- Claim C1, code bug: the claim says every URL-accepting tool rejects a URL
not beginning with `http://`/`https://` with a validation error naming the
parameter and makes no network call, and the server docstrings promise the
same — but no handler contains any URL check. With a credential configured,
`markdownify` called on the protocol-less URL `example.com` builds the
upstream POST containing that URL unchanged (a network call is made), and a
successful upstream reply is returned as the result. -/
theorem C1_no_url_validation :
    prepareTool (.markdownify "example.com") (some "key") none =
      .request ⟨"POST", BASE_URL ++ "/markdownify",
        some [("website_url", Json.str "example.com")]⟩ ∧
    runTool (.markdownify "example.com") (some "key") none
        (fun _ => ⟨200, "OK", "\x7b\"markdown\":\"ok\"\x7d"⟩) =
      Json.obj [("markdown", Json.str "ok")] :=
  ⟨rfl, rfl⟩

/-- Claim C2, code bug: the claim says `smartscraper` rejects
`number_of_scrolls` outside 0-50 and `total_pages` outside 1-100 with a local
validation error, and the module docstring even quotes the error text — but
no handler contains any range check. With a credential configured,
`number_of_scrolls = 51` and `total_pages = 101` are placed in the upstream
payload unchanged and the POST is issued. -/
theorem C2_no_range_validation :
    prepareTool (.smartscraper
        ⟨"p", some "https://example.com", none, none, none, some 51, some 101, none, none⟩)
        (some "key") none =
      .request ⟨"POST", BASE_URL ++ "/smartscraper",
        some [("user_prompt", Json.str "p"),
              ("website_url", Json.str "https://example.com"),
              ("number_of_scrolls", Json.num 51),
              ("total_pages", Json.num 101)]⟩ :=
  rfl

/-- Claim C9, code bug: the claim (and the source's own
`Optional[List[str]]` annotations) say the normalized `steps` list always
consists of strings, but a string argument that JSON-decodes to a list is
forwarded with its elements unchanged: `steps = "[1,2]"` normalizes to the
JSON list `[1, 2]`, whose elements are numbers, and that list is placed in
the upstream payload. -/
theorem C9_steps_nonstring_forwarded :
    normalize_steps (some (.str "[1,2]")) = some [Json.num 1, Json.num 2] ∧
    List.all [Json.num 1, Json.num 2] jsonIsStr = false ∧
    prepareTool (.agentic_scrapper
        ⟨"https://example.com", none, none, some (.str "[1,2]"), none, none⟩)
        (some "key") none =
      .request ⟨"POST", BASE_URL ++ "/agentic-scrapper",
        some [("url", Json.str "https://example.com"),
              ("steps", Json.arr [Json.num 1, Json.num 2])]⟩ :=
  ⟨rfl, rfl, rfl⟩

/-- Claim C10: every tool result is either the decoded upstream success body
or the uniform failure envelope — a dictionary whose only key is `error`,
mapped to a string; no failure path ever attaches `error_type`, `parameter`
or `valid_range` fields. -/
theorem C10_error_envelope_shape (tc : ToolCall) (header sessionConfig : Option String)
    (upstream : HttpRequest → HttpResponse) :
    (∃ msg, runTool tc header sessionConfig upstream = errorEnvelope msg) ∨
    (∃ req body, prepareTool tc header sessionConfig = .request req ∧
      finishTool tc req (upstream req) = .ok body ∧
      runTool tc header sessionConfig upstream = body) := by
  cases hp : prepareTool tc header sessionConfig with
  | localError e =>
    exact Or.inl ⟨e, runTool_localError tc header sessionConfig upstream e hp⟩
  | request req =>
    have hr : runTool tc header sessionConfig upstream =
        match finishTool tc req (upstream req) with
        | .ok j => j
        | .error e => errorEnvelope e := by
      unfold runTool; rw [hp]
    cases hf : finishTool tc req (upstream req) with
    | error e =>
      simp only [hf] at hr
      exact Or.inl ⟨e, hr⟩
    | ok b =>
      simp only [hf] at hr
      exact Or.inr ⟨req, b, rfl, hf, hr⟩

/-- Claim C3 counterexample: the claim says the credential failure is checked
first, before any parameter normalization. But `agentic_scrapper` normalizes
`output_schema` before resolving the credential: with no credential
configured anywhere and an undecodable `output_schema` string, the returned
error is the schema error naming `output_schema`, not the credential error
naming the two configuration paths. -/
theorem C3_counterexample :
    runTool (.agentic_scrapper
        ⟨"https://example.com", none, some (.str "not json"), none, none, none⟩)
        none none (fun _ => ⟨200, "OK", "\x7b\x7d"⟩) =
      errorEnvelope invalidSchemaJsonMsg ∧
    strContains invalidSchemaJsonMsg "output_schema" = true ∧
    strContains invalidSchemaJsonMsg "X-API-Key" = false ∧
    strContains invalidSchemaJsonMsg "scrapegraphApiKey" = false :=
  ⟨rfl, rfl, rfl, rfl⟩

/-- Claim C3 (amended): for every tool, when neither the inbound `X-API-Key`
header nor the session configuration yields a non-empty credential, the call
fails locally — no network activity — with the credential error naming both
configuration paths; this happens before any parameter normalization in
every tool except `agentic_scrapper`, which normalizes `steps` and
`output_schema` first (so the credential error is only guaranteed there when
that normalization succeeds, as `agenticSchemaOk` requires). -/
theorem C3_credential_error (tc : ToolCall) (header sessionConfig : Option String)
    (upstream : HttpRequest → HttpResponse)
    (hh : header.getD "" = "") (hs : sessionConfig.getD "" = "")
    (hn : agenticSchemaOk tc = true) :
    prepareTool tc header sessionConfig = .localError apiKeyErrorMsg ∧
    runTool tc header sessionConfig upstream = errorEnvelope apiKeyErrorMsg ∧
    strContains apiKeyErrorMsg "X-API-Key" = true ∧
    strContains apiKeyErrorMsg "scrapegraphApiKey" = true := by
  have hcred : get_api_key header sessionConfig = .error apiKeyErrorMsg :=
    get_api_key_empty header sessionConfig hh hs
  have hprep : prepareTool tc header sessionConfig = .localError apiKeyErrorMsg := by
    cases tc with
    | agentic_scrapper a =>
      revert hn
      simp only [prepareTool, agenticSchemaOk]
      cases hns : normalize_output_schema a.output_schema with
      | error e => intro hn; exact absurd hn (by simp)
      | ok ns => intro _; simp [withApiKey, hcred]
    | markdownify u => simp [prepareTool, withApiKey, hcred]
    | smartscraper a => simp [prepareTool, withApiKey, hcred]
    | searchscraper u nr ns => simp [prepareTool, withApiKey, hcred]
    | smartcrawler_initiate u p m d mp sd => simp [prepareTool, withApiKey, hcred]
    | smartcrawler_fetch_results r => simp [prepareTool, withApiKey, hcred]
    | scrape u r => simp [prepareTool, withApiKey, hcred]
    | sitemap u => simp [prepareTool, withApiKey, hcred]
  exact ⟨hprep, runTool_localError tc header sessionConfig upstream apiKeyErrorMsg hprep,
    rfl, rfl⟩

/-- Witness for C3: a concrete `markdownify` call with no credential from
either source returns the credential error envelope. -/
theorem C3_witness :
    prepareTool (.markdownify "https://example.com") none none =
      .localError apiKeyErrorMsg ∧
    runTool (.markdownify "https://example.com") none none
        (fun _ => ⟨200, "OK", "\x7b\x7d"⟩) = errorEnvelope apiKeyErrorMsg ∧
    strContains apiKeyErrorMsg "X-API-Key" = true ∧
    strContains apiKeyErrorMsg "scrapegraphApiKey" = true :=
  C3_credential_error (.markdownify "https://example.com") none none
    (fun _ => ⟨200, "OK", "\x7b\x7d"⟩) rfl rfl rfl

/-- Claim C4 counterexample: the claim says the error text always contains
the response body verbatim. But `scrape` (like `sitemap` and
`agentic_scrapper`) relies on `httpx.Response.raise_for_status`, whose
message is built from the status code, reason phrase and request URL only:
on an upstream HTTP 500 with body `server exploded`, the envelope's error
text contains the status code but not the body. -/
theorem C4_counterexample :
    runTool (.scrape "https://example.com" none) (some "key") none
        (fun _ => ⟨500, "Internal Server Error", "server exploded"⟩) =
      errorEnvelope
        (httpxStatusErrorMessage 500 "Internal Server Error" (BASE_URL ++ "/scrape")) ∧
    strContains
        (httpxStatusErrorMessage 500 "Internal Server Error" (BASE_URL ++ "/scrape"))
        "500" = true ∧
    strContains
        (httpxStatusErrorMessage 500 "Internal Server Error" (BASE_URL ++ "/scrape"))
        "server exploded" = false :=
  ⟨rfl, rfl, rfl⟩

/-- Claim C4 (amended): whenever a tool call reaches the network and the
upstream responds with a non-2xx status, the tool returns the error envelope
carrying `upstreamErrorMessage` — `Error {code}: {body}` (status code and
body verbatim) for markdownify, smartscraper, searchscraper,
smartcrawler_initiate and smartcrawler_fetch_results, and the httpx
`raise_for_status` message (status code but no body) for scrape, sitemap and
agentic_scrapper — and no exception escapes the tool boundary. -/
theorem C4_upstream_error (tc : ToolCall) (header sessionConfig : Option String)
    (upstream : HttpRequest → HttpResponse) (req : HttpRequest)
    (hprep : prepareTool tc header sessionConfig = .request req)
    (hstatus : (upstream req).statusCode < 200 ∨ 299 < (upstream req).statusCode) :
    runTool tc header sessionConfig upstream =
      errorEnvelope (upstreamErrorMessage tc req (upstream req)) := by
  have hne : (upstream req).statusCode ≠ 200 := by omega
  have hnotok : ¬(200 ≤ (upstream req).statusCode ∧ (upstream req).statusCode ≤ 299) := by
    omega
  have hr : runTool tc header sessionConfig upstream =
      match finishTool tc req (upstream req) with
      | .ok j => j
      | .error e => errorEnvelope e := by
    unfold runTool; rw [hprep]
  rw [hr]
  by_cases hu : usesRaiseForStatus tc = true
  · simp [finishTool, upstreamErrorMessage, hu, raiseForStatusFinish, hnotok]
  · simp [finishTool, upstreamErrorMessage, hu, checkStatusFinish, hne]

/-- Witness for C4: `markdownify` on an upstream 500 with body
`server exploded` returns the envelope `Error 500: server exploded`,
containing both the status code and the body. -/
theorem C4_witness :
    runTool (.markdownify "https://example.com") (some "key") none
        (fun _ => ⟨500, "Internal Server Error", "server exploded"⟩) =
      errorEnvelope (upstreamErrorMessage (.markdownify "https://example.com")
        ⟨"POST", BASE_URL ++ "/markdownify",
          some [("website_url", Json.str "https://example.com")]⟩
        ⟨500, "Internal Server Error", "server exploded"⟩) ∧
    upstreamErrorMessage (.markdownify "https://example.com")
        ⟨"POST", BASE_URL ++ "/markdownify",
          some [("website_url", Json.str "https://example.com")]⟩
        ⟨500, "Internal Server Error", "server exploded"⟩ =
      "Error 500: server exploded" ∧
    strContains "Error 500: server exploded" "500" = true ∧
    strContains "Error 500: server exploded" "server exploded" = true :=
  ⟨C4_upstream_error (.markdownify "https://example.com") (some "key") none
      (fun _ => ⟨500, "Internal Server Error", "server exploded"⟩)
      ⟨"POST", BASE_URL ++ "/markdownify",
        some [("website_url", Json.str "https://example.com")]⟩
      rfl (by decide),
    rfl, rfl, rfl⟩

/-- Claim C5: for `smartscraper`, supplying none of `website_url`,
`website_html`, `website_markdown` raises the missing-source error while
building the payload — before any network call, so with a valid credential
the whole call fails locally — and supplying exactly one of them builds a
payload containing exactly that one content-source key. -/
theorem C5_smartscraper_sources :
    (∀ (up : String) (schema : Option (List (String × Json))) (ns tp : Option Int)
        (rj st : Option Bool),
      smartscraper_payload up none none none schema ns tp rj st =
        .error missingSourceMsg) ∧
    (∀ (header sessionConfig : Option String) (k : String) (a : SmartscraperArgs),
      get_api_key header sessionConfig = .ok k →
      a.website_url = none → a.website_html = none → a.website_markdown = none →
      a.output_schema = none →
      prepareTool (.smartscraper a) header sessionConfig =
        .localError missingSourceMsg) ∧
    (∀ (up u : String) (schema : Option (List (String × Json))) (ns tp : Option Int)
        (rj st : Option Bool), ∃ p,
      smartscraper_payload up (some u) none none schema ns tp rj st = .ok p ∧
      sourceKeys p = ["website_url"]) ∧
    (∀ (up h : String) (schema : Option (List (String × Json))) (ns tp : Option Int)
        (rj st : Option Bool), ∃ p,
      smartscraper_payload up none (some h) none schema ns tp rj st = .ok p ∧
      sourceKeys p = ["website_html"]) ∧
    (∀ (up m : String) (schema : Option (List (String × Json))) (ns tp : Option Int)
        (rj st : Option Bool), ∃ p,
      smartscraper_payload up none none (some m) schema ns tp rj st = .ok p ∧
      sourceKeys p = ["website_markdown"]) := by
  refine ⟨fun up schema ns tp rj st => rfl, ?_, ?_, ?_, ?_⟩
  · intro header sessionConfig k a hk h1 h2 h3 h4
    rcases a with ⟨up, wu, wh, wm, os, nsc, tpg, rj, st⟩
    simp only at h1 h2 h3 h4
    subst h1; subst h2; subst h3; subst h4
    simp [prepareTool, withApiKey, hk, normalize_output_schema,
      smartscraper_payload, smartscraper_source, missingSourceMsg]
  · intro up u schema ns tp rj st
    rcases schema with _ | d <;> rcases ns with _ | n <;> rcases tp with _ | t <;>
      rcases rj with _ | r <;> rcases st with _ | s2 <;> exact ⟨_, rfl, rfl⟩
  · intro up h schema ns tp rj st
    rcases schema with _ | d <;> rcases ns with _ | n <;> rcases tp with _ | t <;>
      rcases rj with _ | r <;> rcases st with _ | s2 <;> exact ⟨_, rfl, rfl⟩
  · intro up m schema ns tp rj st
    rcases schema with _ | d <;> rcases ns with _ | n <;> rcases tp with _ | t <;>
      rcases rj with _ | r <;> rcases st with _ | s2 <;> exact ⟨_, rfl, rfl⟩

/-- Witness for C5: a concrete no-source call fails locally with the
missing-source error, and a concrete `website_url`-only call builds a payload
whose only content-source key is `website_url`. -/
theorem C5_witness :
    prepareTool (.smartscraper ⟨"p", none, none, none, none, none, none, none, none⟩)
        (some "key") none = .localError missingSourceMsg ∧
    (∃ p, smartscraper_payload "p" (some "https://example.com") none none
        none none none none none = .ok p ∧ sourceKeys p = ["website_url"]) :=
  ⟨C5_smartscraper_sources.2.1 (some "key") none "key"
      ⟨"p", none, none, none, none, none, none, none, none⟩ rfl rfl rfl rfl rfl,
    C5_smartscraper_sources.2.2.1 "p" "https://example.com" none none none none none⟩

/-- Claim C6: `output_schema` normalization is idempotent and
format-insensitive — a dict already containing `required` is unchanged, a
dict lacking it gets `required: []` appended, a JSON string decoding to an
object normalizes exactly like the equivalent native dict, an undecodable
string yields the error naming `output_schema`, and a string decoding to a
non-object yields the type error. -/
theorem C6_output_schema_normalization :
    (∀ d, payloadHasKey d "required" = true →
      normalize_output_schema (some (.dict d)) = .ok (some d)) ∧
    (∀ d, payloadHasKey d "required" = false →
      normalize_output_schema (some (.dict d)) =
        .ok (some (d ++ [("required", Json.arr [])]))) ∧
    (∀ x d, normalize_output_schema x = .ok (some d) →
      normalize_output_schema (some (.dict d)) = .ok (some d)) ∧
    (∀ s kvs, jsonParse s = some (Json.obj kvs) →
      normalize_output_schema (some (.str s)) =
        normalize_output_schema (some (.dict kvs))) ∧
    (∀ s, jsonParse s = none →
      normalize_output_schema (some (.str s)) = .error invalidSchemaJsonMsg) ∧
    strContains invalidSchemaJsonMsg "output_schema" = true ∧
    (∀ s j, jsonParse s = some j → jsonIsObj j = false →
      normalize_output_schema (some (.str s)) =
        .error "output_schema must be a JSON object") := by
  refine ⟨?_, ?_, ?_, ?_, ?_, rfl, ?_⟩
  · intro d h
    simp only [normalize_output_schema]
    rw [ensureRequired_of_hasKey d h]
  · intro d h
    simp [normalize_output_schema, ensureRequired, h]
  · intro x d h
    cases x with
    | none => simp [normalize_output_schema] at h
    | some si =>
      cases si with
      | dict d2 =>
        simp only [normalize_output_schema, Except.ok.injEq, Option.some.injEq] at h
        subst h
        simp only [normalize_output_schema]
        rw [ensureRequired_idem]
      | str s =>
        simp only [normalize_output_schema] at h
        cases hp : jsonParse s with
        | none => rw [hp] at h; simp at h
        | some j =>
          rw [hp] at h
          cases j with
          | obj kvs =>
            simp only [Except.ok.injEq, Option.some.injEq] at h
            subst h
            simp only [normalize_output_schema]
            rw [ensureRequired_idem]
          | null => simp at h
          | bool b => simp at h
          | num n => simp at h
          | str s2 => simp at h
          | arr xs => simp at h
  · intro s kvs hp
    simp only [normalize_output_schema]
    rw [hp]
  · intro s hp
    simp only [normalize_output_schema]
    rw [hp]
  · intro s j hp hobj
    simp only [normalize_output_schema]
    rw [hp]
    cases j with
    | obj kvs => simp [jsonIsObj] at hobj
    | null => rfl
    | bool b => rfl
    | num n => rfl
    | str s2 => rfl
    | arr xs => rfl

/-- Witness for C6: concrete instances — the spec's example string
normalizes exactly like the equivalent native dict; a dict with `required`
is unchanged; one without gets `required: []`; an undecodable string and a
non-object string produce the two errors. -/
theorem C6_witness :
    normalize_output_schema
        (some (.dict [("type", Json.str "object"), ("required", Json.arr [])])) =
      .ok (some [("type", Json.str "object"), ("required", Json.arr [])]) ∧
    normalize_output_schema (some (.str "\x7b\"type\":\"object\"\x7d")) =
      normalize_output_schema (some (.dict [("type", Json.str "object")])) ∧
    normalize_output_schema (some (.dict [("type", Json.str "object")])) =
      .ok (some [("type", Json.str "object"), ("required", Json.arr [])]) ∧
    normalize_output_schema (some (.str "not json")) = .error invalidSchemaJsonMsg ∧
    normalize_output_schema (some (.str "[1]")) =
      .error "output_schema must be a JSON object" :=
  ⟨C6_output_schema_normalization.1 _ rfl,
    C6_output_schema_normalization.2.2.2.1 _ _ rfl,
    C6_output_schema_normalization.2.1 _ rfl,
    C6_output_schema_normalization.2.2.2.2.1 _ rfl,
    C6_output_schema_normalization.2.2.2.2.2.2 "[1]" (Json.arr [Json.num 1]) rfl rfl⟩

/-- Claim C7: `smartcrawler_initiate` in `ai` mode with no prompt fails while
building the payload — before any network call, so with a valid credential
the whole call fails locally; in `markdown` mode it succeeds even with a
prompt supplied, sending `markdown_only = true` and omitting the `prompt`
key; any other mode fails with the error enumerating `ai` and `markdown`. -/
theorem C7_smartcrawler_modes :
    (∀ (url : String) (depth mp : Option Int) (sdo : Option Bool),
      smartcrawler_initiate_payload url none "ai" depth mp sdo =
        .error promptRequiredMsg) ∧
    (∀ (header sessionConfig : Option String) (k url : String)
        (depth mp : Option Int) (sdo : Option Bool),
      get_api_key header sessionConfig = .ok k →
      prepareTool (.smartcrawler_initiate url none "ai" depth mp sdo)
        header sessionConfig = .localError promptRequiredMsg) ∧
    (∀ (url p : String) (depth mp : Option Int) (sdo : Option Bool), ∃ pay,
      smartcrawler_initiate_payload url (some p) "markdown" depth mp sdo = .ok pay ∧
      payloadGet pay "markdown_only" = some (Json.bool true) ∧
      payloadHasKey pay "prompt" = false) ∧
    (∀ (url : String) (p : Option String) (m : String) (depth mp : Option Int)
        (sdo : Option Bool), m ≠ "ai" → m ≠ "markdown" →
      smartcrawler_initiate_payload url p m depth mp sdo =
        .error (invalidModeMsg m)) ∧
    strContains (invalidModeMsg "other") "ai" = true ∧
    strContains (invalidModeMsg "other") "markdown" = true := by
  refine ⟨fun url depth mp sdo => rfl, ?_, ?_, ?_, rfl, rfl⟩
  · intro header sessionConfig k url depth mp sdo hk
    simp [prepareTool, withApiKey, hk, smartcrawler_initiate_payload]
  · intro url p depth mp sdo
    rcases depth with _ | d <;> rcases mp with _ | m2 <;> rcases sdo with _ | s2 <;>
      exact ⟨_, rfl, rfl, rfl⟩
  · intro url p m depth mp sdo h1 h2
    simp only [smartcrawler_initiate_payload]
    rw [if_neg h2, if_neg h1]

/-- Witness for C7: concrete instances — `ai` mode without a prompt fails
locally; `markdown` mode with a prompt builds the `markdown_only` payload
without a `prompt` key; mode `other` is rejected with the message listing
both recognized modes. -/
theorem C7_witness :
    smartcrawler_initiate_payload "https://example.com" none "ai" none none none =
      .error promptRequiredMsg ∧
    prepareTool (.smartcrawler_initiate "https://example.com" none "ai" none none none)
        (some "key") none = .localError promptRequiredMsg ∧
    (∃ pay, smartcrawler_initiate_payload "https://example.com" (some "extract")
        "markdown" none none none = .ok pay ∧
      payloadGet pay "markdown_only" = some (Json.bool true) ∧
      payloadHasKey pay "prompt" = false) ∧
    smartcrawler_initiate_payload "https://example.com" (some "x") "other"
        none none none = .error (invalidModeMsg "other") :=
  ⟨C7_smartcrawler_modes.1 "https://example.com" none none none,
    C7_smartcrawler_modes.2.1 (some "key") none "key" "https://example.com"
      none none none rfl,
    C7_smartcrawler_modes.2.2.1 "https://example.com" "extract" none none none,
    C7_smartcrawler_modes.2.2.2.1 "https://example.com" (some "x") "other"
      none none none (by decide) (by decide)⟩

/-- Claim C8: `steps` normalization maps the JSON-array string to its decoded
list, wraps any string that does not decode to a JSON list as a one-element
list, leaves a native list unchanged, and never rejects a string or list
input. -/
theorem C8_steps_normalization :
    normalize_steps (some (.str "[\"a\",\"b\"]")) =
      some [Json.str "a", Json.str "b"] ∧
    (∀ s : String, (∀ xs, jsonParse s ≠ some (Json.arr xs)) →
      normalize_steps (some (.str s)) = some [Json.str s]) ∧
    (∀ xs : List String, normalize_steps (some (.list xs)) =
      some (xs.map Json.str)) ∧
    (∀ x : StepsInput, (normalize_steps (some x)).isSome = true) := by
  refine ⟨rfl, ?_, fun xs => rfl, ?_⟩
  · intro s h
    cases hp : jsonParse s with
    | none => simp [normalize_steps, hp]
    | some j =>
      cases j with
      | arr xs => exact absurd hp (h xs)
      | null => simp [normalize_steps, hp]
      | bool b => simp [normalize_steps, hp]
      | num n => simp [normalize_steps, hp]
      | str s2 => simp [normalize_steps, hp]
      | obj kvs => simp [normalize_steps, hp]
  · intro x
    cases x with
    | list xs => rfl
    | str s =>
      cases hp : jsonParse s with
      | none => simp [normalize_steps, hp]
      | some j => cases j <;> simp [normalize_steps, hp]

/-- Witness for C8: the plain string `do the thing`, which is not decodable
JSON, normalizes to the one-element list containing it. -/
theorem C8_witness :
    normalize_steps (some (.str "do the thing")) = some [Json.str "do the thing"] :=
  C8_steps_normalization.2.1 "do the thing" (fun _ h => Option.noConfusion h)

end ScrapeGraphMCP
